import Mathlib

/-!
Verification of the goodvg markup-construction engine (src/index.js).

The engine assembles SVG/HTML markup as text: an attribute serializer
(`convertAttributes`), a tag builder (`constructTag`), a content store
(the `headC`/`bodyC` fragment sequences of a `Graphic`), shape primitives
(`circle`, `rect`, ..., `group`) and a template assembler
(`constructTemplate`/`markup`).

Modelling conventions, matching the JavaScript semantics:
* JavaScript attribute values are modelled by `JVal`: a string (numbers are
  carried as their decimal rendering, since the code only ever interpolates
  them into strings), an array of 2-element coordinate pairs, or a nested
  object (used for `style`).  `jvalToString` is JavaScript's `String(v)`:
  strings pass through, arrays join their elements with `","`
  (each pair `[x, y]` renders as `"x,y"`), plain objects render as
  `"[object Object]"`.
* A JavaScript object is an insertion-ordered association list
  (`AttrMap`); property read is `jsGet`, property write / spread-literal
  override is `jsSet` (update in place keeping the key's position, or
  append a fresh key at the end).
* In-place mutation (the serializer rewriting `attributes.style`, the
  template assembler mutating the document's root attributes) is modelled
  by returning the updated map / document alongside the result.
-/

namespace Goodvg

/-- JavaScript attribute values as used by the library: strings (and
stringified numbers), arrays of coordinate pairs, nested style objects. -/
inductive JVal where
  | vStr : String → JVal
  | vArr : List (String × String) → JVal
  | vObj : List (String × String) → JVal
deriving DecidableEq

/-- A JavaScript object used as an attribute mapping: insertion-ordered
key/value pairs. -/
abbrev AttrMap := List (String × JVal)

/-- JavaScript `Array.prototype.join(",")` (the behaviour of
`Array.prototype.toString`). -/
def joinComma : List String → String
  | [] => ""
  | [x] => x
  | x :: y :: rest => x ++ "," ++ joinComma (y :: rest)

/-- JavaScript `String(v)` on a `JVal`: template-literal interpolation. -/
def jvalToString : JVal → String
  | .vStr s => s
  | .vArr ps => joinComma (ps.map (fun p => p.1 ++ "," ++ p.2))
  | .vObj _ => "[object Object]"

/-- JavaScript property read `m[k]` on an attribute mapping. -/
def jsGet (m : AttrMap) (k : String) : Option JVal :=
  match m with
  | [] => none
  | p :: rest => if p.1 = k then some p.2 else jsGet rest k

/-- JavaScript property write `m[k] = v` (and the override step of a spread
literal `{...m, k: v}`): update the first entry with key `k` in place,
keeping its position, or append a new entry at the end. -/
def jsSet (m : AttrMap) (k : String) (v : JVal) : AttrMap :=
  match m with
  | [] => [(k, v)]
  | p :: rest => if p.1 = k then (k, v) :: rest else p :: jsSet rest k v

/-- Concatenation of `f x` over a list, in order: the spec's
"concatenation, in insertion order, of ... for each entry". -/
def concatMapStr {α : Type} (f : α → String) : List α → String
  | [] => ""
  | x :: rest => f x ++ concatMapStr f rest

/-- Style flattening from `convertAttributes` (src/index.js:45-54):
`Object.keys(style).reduce((result, attrib) => result + \` ${attrib}: ${property};\`, "")`. -/
def flattenStyle (style : List (String × String)) : String :=
  style.foldl (fun result p => result ++ " " ++ p.1 ++ ": " ++ p.2 ++ ";") ""

/-- Style flattening when the `style` value is an array (JavaScript
`Object.keys` of an array yields the indices `"0"`, `"1"`, ...; each
2-element pair interpolates as `"x,y"`). -/
def flattenStyleIdx (style : List (String × String)) : String :=
  (style.enum).foldl
    (fun result ip => result ++ " " ++ toString ip.1 ++ ": " ++ ip.2.1 ++ "," ++ ip.2.2 ++ ";") ""

/-- `convertAttributes` (src/index.js:43-68).  If the mapping has a truthy
`style` property of object type (a nested object or an array), the property
is first overwritten in place with the flattened style string; then the
mapping is serialized by
`Object.keys(attributes).reduce((result, attrib) => result + \` ${attrib}="${property}"\`, "")`.
Returns the (possibly mutated) mapping together with the attribute string. -/
def convertAttributes (attributes : AttrMap) : AttrMap × String :=
  let attributes1 :=
    match jsGet attributes "style" with
    | some (JVal.vObj style) => jsSet attributes "style" (JVal.vStr (flattenStyle style))
    | some (JVal.vArr ps) => jsSet attributes "style" (JVal.vStr (flattenStyleIdx ps))
    | _ => attributes
  (attributes1,
   attributes1.foldl (fun result p => result ++ " " ++ p.1 ++ "=\"" ++ jvalToString p.2 ++ "\"") "")

/-- The `Graphic` document instance (src/index.js:90-118).  `contents.head`
and `contents.body` are the ordered fragment sequences `headC`/`bodyC`.
`height`, `width` and `viewBox` are carried as their string renderings,
since the code only ever interpolates them. -/
structure Graphic where
  attributes : AttrMap
  container : String
  template : String
  headC : List String
  bodyC : List String
  height : String
  width : String
  viewBox : String

/-- A fresh `new Graphic()` with the constructor defaults
(src/index.js:101-112). -/
def newGraphic : Graphic :=
  { attributes := [], container := "body", template := "svg",
    headC := [], bodyC := [], height := "1200", width := "1200",
    viewBox := "0 0 1200 1200" }

/-- The `location` argument of `constructTag`: which content sequence a
fragment is appended to. -/
inductive Loc where
  | head : Loc
  | body : Loc
deriving DecidableEq

/-- `this.contents[location].push(fragment)`. -/
def pushLoc : Loc → String → Graphic → Graphic
  | .head, s, g => { g with headC := g.headC ++ [s] }
  | .body, s, g => { g with bodyC := g.bodyC ++ [s] }

/-- JavaScript string conversion of an array of strings
(`Array.prototype.toString` = `join(",")`), as triggered by `head + body`. -/
def jsArrayToString (l : List String) : String :=
  String.intercalate "," l

/-- The JavaScript return value of a method: the instance itself
(`return this`) or `undefined` (no return statement). -/
inductive JSRet where
  | thisRet : JSRet
  | undefRet : JSRet
deriving DecidableEq

/-- `constructTemplate` (src/index.js:235-264).  The `svg` and `html`
branches call `convertAttributes(this.attributes)`, which mutates the
document's attribute object in place (style flattening); the returned
`Graphic` carries that mutation.  The default branch is the JavaScript
expression `head + body`, which converts both arrays to strings
(joining entries with `","`) and concatenates them. -/
def constructTemplate (g : Graphic) : Graphic × String :=
  if g.template = "html" then
    let conv := convertAttributes g.attributes
    ({ g with attributes := conv.1 },
     "\n  <html class=\"goodvg\" " ++ conv.2 ++ ">\n    <head>\n      "
       ++ String.intercalate "\n" g.headC
       ++ "\n    </head>\n    <body>\n      "
       ++ String.intercalate "\n" g.bodyC
       ++ "\n    </body>\n  </html>")
  else if g.template = "svg" then
    let conv := convertAttributes g.attributes
    ({ g with attributes := conv.1 },
     "\n  <svg\n    xmlns=\"http://www.w3.org/2000/svg\"\n    height=\"" ++ g.height
       ++ "\" width=\"" ++ g.width ++ "\"\n    viewBox=\"" ++ g.viewBox
       ++ "\"\n    class=\"goodvg\"\n    " ++ conv.2 ++ "\n  >\n    "
       ++ String.intercalate "\n" g.headC ++ "\n    "
       ++ String.intercalate "\n" g.bodyC ++ "\n  </svg>")
  else
    (g, jsArrayToString g.headC ++ jsArrayToString g.bodyC)

/-- `markup` (src/index.js:270-274): returns `constructTemplate()`.  The
first component is the document after the call (the template assembler may
mutate the root attributes), the second the markup string. -/
def markup (g : Graphic) : Graphic × String :=
  constructTemplate g

/-- `empty` (src/index.js:172-176): clears both content sequences and
returns `this`. -/
def empty (g : Graphic) : Graphic × JSRet :=
  ({ g with headC := [], bodyC := [] }, .thisRet)

/-- `head(str)` (src/index.js:183-187). -/
def head (str : String) (g : Graphic) : Graphic × JSRet :=
  (pushLoc .head str g, .thisRet)

/-- `body(str)` (src/index.js:194-198). -/
def body (str : String) (g : Graphic) : Graphic × JSRet :=
  (pushLoc .body str g, .thisRet)

/-- `setAttributes` (src/index.js:281-285):
`this.attributes = { ...this.attributes, ...attributes }`. -/
def setAttributes (attributes : AttrMap) (g : Graphic) : Graphic × JSRet :=
  ({ g with attributes := attributes.foldl (fun acc p => jsSet acc p.1 p.2) g.attributes },
   .thisRet)

/-- The `content` argument of `constructTag`: absent (`undefined`), literal
text, an attribute object passed in content position, or a nested-content
callback.  A JavaScript callback is an opaque state transformer on the
shared document. -/
inductive ContentF where
  | undef : ContentF
  | text : String → ContentF
  | obj : AttrMap → ContentF
  | callback : (Graphic → Graphic) → ContentF

/-- The start-tag fragment `\`<${tag} ${strAttributes}>\``. -/
def openTag (tag : String) (attributes : AttrMap) : String :=
  "<" ++ tag ++ " " ++ (convertAttributes attributes).2 ++ ">"

/-- The end-tag fragment `\`</${tag}>\``. -/
def closeTag (tag : String) : String :=
  "</" ++ tag ++ ">"

/-- The self-closing fragment `\`<${tag} ${strAttributes} />\``. -/
def selfCloseTag (tag : String) (attributes : AttrMap) : String :=
  "<" ++ tag ++ " " ++ (convertAttributes attributes).2 ++ " />"

/-- `constructTag` (src/index.js:208-229).  Decision chain of the source:
if the content is an object it is used as the attribute mapping; if the
content is falsy (`undefined` or `""`) or an object, one self-closing
fragment is appended; if it is a callback, the start tag is appended, the
callback is invoked synchronously, then the end tag is appended; otherwise
the literal text is wrapped into a single fragment. -/
def constructTag (maybeAttributes : AttrMap) (content : ContentF) (location : Loc)
    (tag : String) (g : Graphic) : Graphic :=
  let attributes := match content with | .obj a => a | _ => maybeAttributes
  match content with
  | .undef => pushLoc location (selfCloseTag tag attributes) g
  | .obj _ => pushLoc location (selfCloseTag tag attributes) g
  | .text s =>
      if s = "" then pushLoc location (selfCloseTag tag attributes) g
      else pushLoc location (openTag tag attributes ++ s ++ closeTag tag) g
  | .callback f => pushLoc location (closeTag tag) (f (pushLoc location (openTag tag attributes) g))

/-- The group tag selection `this.template === "svg" ? "g" : "div"`
(src/index.js:470). -/
def groupTag (template : String) : String :=
  if template = "svg" then "g" else "div"

/-- `{ ...attributes, cx: x, cy: y, r: radius }` from `circle`. -/
def circleAttrs (x y radius : String) (attributes : AttrMap) : AttrMap :=
  jsSet (jsSet (jsSet attributes "cx" (.vStr x)) "cy" (.vStr y)) "r" (.vStr radius)

/-- `{ ...attributes, cx: x, cy: y, rx: width, ry: height }` from `ellipse`. -/
def ellipseAttrs (x y width height : String) (attributes : AttrMap) : AttrMap :=
  jsSet (jsSet (jsSet (jsSet attributes "cx" (.vStr x)) "cy" (.vStr y))
    "rx" (.vStr width)) "ry" (.vStr height)

/-- `{ ...attributes, x, y, width, height }` from `rect`. -/
def rectAttrs (x y width height : String) (attributes : AttrMap) : AttrMap :=
  jsSet (jsSet (jsSet (jsSet attributes "x" (.vStr x)) "y" (.vStr y))
    "width" (.vStr width)) "height" (.vStr height)

/-- `{ ...attributes, x1, x2, y1, y2 }` from `line` (note the source's
key order: `x1`, `x2`, `y1`, `y2`). -/
def lineAttrs (x1 y1 x2 y2 : String) (attributes : AttrMap) : AttrMap :=
  jsSet (jsSet (jsSet (jsSet attributes "x1" (.vStr x1)) "x2" (.vStr x2))
    "y1" (.vStr y1)) "y2" (.vStr y2)

/-- `circle` (src/index.js:299-307). -/
def circle (x y radius : String) (attributes : AttrMap) (g : Graphic) : Graphic × JSRet :=
  (constructTag (circleAttrs x y radius attributes) .undef .body "circle" g, .thisRet)

/-- `ellipse`, first variant (src/index.js:318-326): ends in `return this`. -/
def ellipse (x y width height : String) (attributes : AttrMap) (g : Graphic) : Graphic × JSRet :=
  (constructTag (ellipseAttrs x y width height attributes) .undef .body "ellipse" g, .thisRet)

/-- `ellipse`, second variant (src/index.js:778-784): identical call to
`constructTag`, but the method body has no `return` statement, so the call
evaluates to `undefined`. -/
def ellipseSecond (x y width height : String) (attributes : AttrMap) (g : Graphic) :
    Graphic × JSRet :=
  (constructTag (ellipseAttrs x y width height attributes) .undef .body "ellipse" g, .undefRet)

/-- `rect` (src/index.js:337-345). -/
def rect (x y width height : String) (attributes : AttrMap) (g : Graphic) : Graphic × JSRet :=
  (constructTag (rectAttrs x y width height attributes) .undef .body "rect" g, .thisRet)

/-- `square` (src/index.js:355-359): `this.rect(x, y, size, size, attributes)`
followed by `return this`. -/
def square (x y size : String) (attributes : AttrMap) (g : Graphic) : Graphic × JSRet :=
  ((rect x y size size attributes g).1, .thisRet)

/-- `line` (src/index.js:411-425). -/
def line (x1 y1 x2 y2 : String) (attributes : AttrMap) (g : Graphic) : Graphic × JSRet :=
  (constructTag (lineAttrs x1 y1 x2 y2 attributes) .undef .body "line" g, .thisRet)

/-- `path` (src/index.js:392-400): `{ ...attributes, d }`. -/
def path (d : String) (attributes : AttrMap) (g : Graphic) : Graphic × JSRet :=
  (constructTag (jsSet attributes "d" (.vStr d)) .undef .body "path" g, .thisRet)

/-- `polyline` (src/index.js:433-441): `{ ...attributes, points }`. -/
def polyline (points : JVal) (attributes : AttrMap) (g : Graphic) : Graphic × JSRet :=
  (constructTag (jsSet attributes "points" points) .undef .body "polyline" g, .thisRet)

/-- `polygon`, first variant (src/index.js:449-457): ends in `return this`. -/
def polygon (points : JVal) (attributes : AttrMap) (g : Graphic) : Graphic × JSRet :=
  (constructTag (jsSet attributes "points" points) .undef .body "polygon" g, .thisRet)

/-- `polygon`, second variant (src/index.js:855-861): no `return` statement. -/
def polygonSecond (points : JVal) (attributes : AttrMap) (g : Graphic) : Graphic × JSRet :=
  (constructTag (jsSet attributes "points" points) .undef .body "polygon" g, .undefRet)

/-- `group`, first variant (src/index.js:465-474): passes `{ ...attributes }`
and the content on to `constructTag` with tag `g` (svg) / `div` (otherwise),
then `return this`. -/
def group (content : ContentF) (attributes : AttrMap) (g : Graphic) : Graphic × JSRet :=
  (constructTag attributes content .body (groupTag g.template) g, .thisRet)

/-- `group`, second variant (src/index.js:863-870): no `return` statement. -/
def groupSecond (content : ContentF) (attributes : AttrMap) (g : Graphic) : Graphic × JSRet :=
  (constructTag attributes content .body (groupTag g.template) g, .undefRet)

/-- `const height = size * (Math.sqrt(3) / 2)` in `triangle`
(src/index.js:370), over an idealized exact field; `sqrt3` stands for the
value of `Math.sqrt(3)`. -/
def triangleHeight {N : Type} [Field N] (sqrt3 size : N) : N :=
  size * (sqrt3 / 2)

/-- The vertex array of `triangle` (src/index.js:371-376): three vertices
of the equilateral triangle centred at the origin plus the repeated first
vertex. -/
def trianglePoints {N : Type} [Field N] (sqrt3 size : N) : List (N × N) :=
  let height := triangleHeight sqrt3 size
  [(0, -(height / 2)), (-(size / 2), height / 2), (size / 2, height / 2), (0, -(height / 2))]

/-- `\`${attributes.transform || ""}\``: the caller-supplied transform text,
or the empty string when the property is absent or empty. -/
def transformOr (attributes : AttrMap) : String :=
  match jsGet attributes "transform" with
  | some v => jvalToString v
  | none => ""

/-- `triangle` (src/index.js:369-384): computes the vertex array and issues
a single `polyline` call with
`{ ...attributes, transform: \`${attributes.transform || ""} translate(${x} ${y})\` }`,
then `return this`.  `toStr` is the JavaScript number-to-string rendering
used by template-literal interpolation. -/
def triangle {N : Type} [Field N] (sqrt3 : N) (toStr : N → String) (x y size : N)
    (attributes : AttrMap) (g : Graphic) : Graphic × JSRet :=
  let points := trianglePoints sqrt3 size
  ((polyline (JVal.vArr (points.map (fun p => (toStr p.1, toStr p.2))))
      (jsSet attributes "transform"
        (JVal.vStr (transformOr attributes ++ " translate(" ++ toStr x ++ " " ++ toStr y ++ ")")))
      g).1,
   .thisRet)

/-- A construction call against a document: the direct appends
`head`/`body`, the shape primitives, and `group` with each of the possible
content shapes.  A `groupCB` callback body is itself a command (a sequence
of further synchronous calls), which is exactly the restriction under which
the nesting-order invariant is claimed. -/
inductive Cmd where
  | skip : Cmd
  | seq : Cmd → Cmd → Cmd
  | headA : String → Cmd
  | bodyA : String → Cmd
  | circle : String → String → String → AttrMap → Cmd
  | ellipse : String → String → String → String → AttrMap → Cmd
  | rect : String → String → String → String → AttrMap → Cmd
  | square : String → String → String → AttrMap → Cmd
  | line : String → String → String → String → AttrMap → Cmd
  | path : String → AttrMap → Cmd
  | polyline : JVal → AttrMap → Cmd
  | polygon : JVal → AttrMap → Cmd
  | groupNone : AttrMap → Cmd
  | groupText : String → AttrMap → Cmd
  | groupObj : AttrMap → AttrMap → Cmd
  | groupCB : Cmd → AttrMap → Cmd

/-- Execution of a command sequence against a document: each call
synchronously mutates the content store.  The `groupCB` case is
`constructTag`'s callback branch: push the start tag, run the callback,
push the end tag (see `runCmd_groupCB`). -/
def runCmd : Cmd → Graphic → Graphic
  | .skip, g => g
  | .seq c1 c2, g => runCmd c2 (runCmd c1 g)
  | .headA s, g => (head s g).1
  | .bodyA s, g => (body s g).1
  | .circle x y r a, g => (circle x y r a g).1
  | .ellipse x y w h a, g => (ellipse x y w h a g).1
  | .rect x y w h a, g => (rect x y w h a g).1
  | .square x y s a, g => (square x y s a g).1
  | .line x1 y1 x2 y2 a, g => (line x1 y1 x2 y2 a g).1
  | .path d a, g => (path d a g).1
  | .polyline pts a, g => (polyline pts a g).1
  | .polygon pts a, g => (polygon pts a g).1
  | .groupNone a, g => (group .undef a g).1
  | .groupText s a, g => (group (.text s) a g).1
  | .groupObj o a, g => (group (.obj o) a g).1
  | .groupCB c a, g =>
      pushLoc .body (closeTag (groupTag g.template))
        (runCmd c (pushLoc .body (openTag (groupTag g.template) a) g))

/-- A list of calls, issued left to right, as one command. -/
def seqList : List Cmd → Cmd
  | [] => .skip
  | c :: cs => .seq c (seqList cs)

/-- A fragment of the content store, tagged by its role: an opening tag, a
closing tag, or a flat fragment (a self-closing tag, a complete
text-content tag, or a direct string append). -/
inductive Frag where
  | openF : String → AttrMap → Frag
  | closeF : String → Frag
  | flat : String → Frag

/-- The markup text of a tagged fragment. -/
def renderFrag : Frag → String
  | .openF tag attributes => openTag tag attributes
  | .closeF tag => closeTag tag
  | .flat s => s

/-- The tagged fragments a command appends to the body sequence (the
append happens at the end of the sequence, in call order).  The group tag
depends on the document's template mode, which no construction call ever
changes. -/
def cmdTrace (template : String) : Cmd → List Frag
  | .skip => []
  | .seq c1 c2 => cmdTrace template c1 ++ cmdTrace template c2
  | .headA _ => []
  | .bodyA s => [.flat s]
  | .circle x y r a => [.flat (selfCloseTag "circle" (circleAttrs x y r a))]
  | .ellipse x y w h a => [.flat (selfCloseTag "ellipse" (ellipseAttrs x y w h a))]
  | .rect x y w h a => [.flat (selfCloseTag "rect" (rectAttrs x y w h a))]
  | .square x y s a => [.flat (selfCloseTag "rect" (rectAttrs x y s s a))]
  | .line x1 y1 x2 y2 a => [.flat (selfCloseTag "line" (lineAttrs x1 y1 x2 y2 a))]
  | .path d a => [.flat (selfCloseTag "path" (jsSet a "d" (.vStr d)))]
  | .polyline pts a => [.flat (selfCloseTag "polyline" (jsSet a "points" pts))]
  | .polygon pts a => [.flat (selfCloseTag "polygon" (jsSet a "points" pts))]
  | .groupNone a => [.flat (selfCloseTag (groupTag template) a)]
  | .groupText s a =>
      if s = "" then [.flat (selfCloseTag (groupTag template) a)]
      else [.flat (openTag (groupTag template) a ++ s ++ closeTag (groupTag template))]
  | .groupObj o _ => [.flat (selfCloseTag (groupTag template) o)]
  | .groupCB c a =>
      .openF (groupTag template) a :: (cmdTrace template c ++ [.closeF (groupTag template)])

/-- The strings a command appends to the head sequence (only the direct
`head` append targets it; every shape primitive targets the body). -/
def cmdHeadFrags : Cmd → List String
  | .seq c1 c2 => cmdHeadFrags c1 ++ cmdHeadFrags c2
  | .headA s => [s]
  | .groupCB c _ => cmdHeadFrags c
  | _ => []

/-- Well-formed fragment sequences: every opening fragment is followed,
after a fully-balanced inner sequence, by its matching closing fragment;
flat fragments are balanced units. -/
inductive Balanced : List Frag → Prop where
  | nil : Balanced []
  | flat (s : String) {rest : List Frag} : Balanced rest → Balanced (.flat s :: rest)
  | node (tag : String) (attributes : AttrMap) {inner rest : List Frag} :
      Balanced inner → Balanced rest →
      Balanced (.openF tag attributes :: (inner ++ .closeF tag :: rest))

/-- `constructTag`'s callback branch (src/index.js:220-225) when the
callback may throw: the start tag is pushed, the callback runs; if it
throws, the exception propagates (`Except.error` carries the shared
document in its state at the throw) and the line pushing the end tag never
runs. -/
def constructTagTry (maybeAttributes : AttrMap) (f : Graphic → Except Graphic Graphic)
    (location : Loc) (tag : String) (g : Graphic) : Except Graphic Graphic :=
  match f (pushLoc location (openTag tag maybeAttributes) g) with
  | .error gf => .error gf
  | .ok g1 => .ok (pushLoc location (closeTag tag) g1)

/-- Reading back a key just written returns the written value. -/
theorem jsGet_jsSet_self (m : AttrMap) (k : String) (v : JVal) :
    jsGet (jsSet m k v) k = some v := by
  induction m with
  | nil => simp [jsGet, jsSet]
  | cons p rest ih =>
      by_cases hp : p.1 = k
      · simp [jsGet, jsSet, hp]
      · simp [jsGet, jsSet, hp, ih]

/-- Style flattening is idempotent on the mapping: a second
`convertAttributes` pass finds a string-valued `style` (or none) and leaves
the mapping unchanged. -/
theorem convertAttributes_idem (m : AttrMap) :
    convertAttributes (convertAttributes m).1 = convertAttributes m := by
  unfold convertAttributes
  cases h : jsGet m "style" with
  | none => simp [h]
  | some v =>
      cases v with
      | vStr s => simp [h]
      | vArr ps => simp [h, jsGet_jsSet_self]
      | vObj st => simp [h, jsGet_jsSet_self]

/-- The serializer's `reduce` is concatenation of the per-entry pieces. -/
theorem attrFold_eq (m : AttrMap) (init : String) :
    m.foldl (fun result p => result ++ " " ++ p.1 ++ "=\"" ++ jvalToString p.2 ++ "\"") init
      = init ++ concatMapStr (fun p => " " ++ p.1 ++ "=\"" ++ jvalToString p.2 ++ "\"") m := by
  induction m generalizing init with
  | nil => simp [concatMapStr, String.append_empty]
  | cons p rest ih =>
      rw [List.foldl_cons, ih]
      simp [concatMapStr, String.append_assoc]

/-- The style flattening `reduce` is concatenation of the per-entry pieces. -/
theorem styleFold_eq (style : List (String × String)) (init : String) :
    style.foldl (fun result p => result ++ " " ++ p.1 ++ ": " ++ p.2 ++ ";") init
      = init ++ concatMapStr (fun p => " " ++ p.1 ++ ": " ++ p.2 ++ ";") style := by
  induction style generalizing init with
  | nil => simp [concatMapStr, String.append_empty]
  | cons p rest ih =>
      rw [List.foldl_cons, ih]
      simp [concatMapStr, String.append_assoc]

/-- The group command is exactly `constructTag`'s callback branch: `group`
invoked with the callback that runs the nested command sequence. -/
theorem runCmd_groupCB (c : Cmd) (a : AttrMap) (g : Graphic) :
    runCmd (.groupCB c a) g = (group (.callback (runCmd c)) a g).1 :=
  rfl

/-- Locality of execution: a command only appends to the two content
sequences — the head delta is `cmdHeadFrags`, the body delta the rendering
of `cmdTrace`, both computed from the command and the (unchanged) template
mode alone. -/
theorem runCmd_split (c : Cmd) (g : Graphic) :
    runCmd c g = { g with headC := g.headC ++ cmdHeadFrags c,
                          bodyC := g.bodyC ++ (cmdTrace g.template c).map renderFrag } := by
  induction c generalizing g with
  | skip => simp [runCmd, cmdTrace, cmdHeadFrags]
  | seq c1 c2 ih1 ih2 =>
      simp only [runCmd, cmdTrace, cmdHeadFrags]
      rw [ih1 g, ih2]
      simp [List.append_assoc]
  | headA s => simp [runCmd, head, pushLoc, cmdTrace, cmdHeadFrags]
  | bodyA s => simp [runCmd, body, pushLoc, cmdTrace, cmdHeadFrags, renderFrag]
  | circle x y r a =>
      simp [runCmd, circle, constructTag, pushLoc, cmdTrace, cmdHeadFrags, renderFrag]
  | ellipse x y w h a =>
      simp [runCmd, ellipse, constructTag, pushLoc, cmdTrace, cmdHeadFrags, renderFrag]
  | rect x y w h a =>
      simp [runCmd, rect, constructTag, pushLoc, cmdTrace, cmdHeadFrags, renderFrag]
  | square x y s a =>
      simp [runCmd, square, rect, constructTag, pushLoc, cmdTrace, cmdHeadFrags, renderFrag]
  | line x1 y1 x2 y2 a =>
      simp [runCmd, line, constructTag, pushLoc, cmdTrace, cmdHeadFrags, renderFrag]
  | path d a =>
      simp [runCmd, path, constructTag, pushLoc, cmdTrace, cmdHeadFrags, renderFrag]
  | polyline pts a =>
      simp [runCmd, polyline, constructTag, pushLoc, cmdTrace, cmdHeadFrags, renderFrag]
  | polygon pts a =>
      simp [runCmd, polygon, constructTag, pushLoc, cmdTrace, cmdHeadFrags, renderFrag]
  | groupNone a =>
      simp [runCmd, group, constructTag, pushLoc, cmdTrace, cmdHeadFrags, renderFrag]
  | groupText s a =>
      by_cases hs : s = "" <;>
        simp [runCmd, group, constructTag, pushLoc, cmdTrace, cmdHeadFrags, renderFrag, hs]
  | groupObj o a =>
      simp [runCmd, group, constructTag, pushLoc, cmdTrace, cmdHeadFrags, renderFrag]
  | groupCB c a ih =>
      simp only [runCmd, cmdTrace, cmdHeadFrags]
      rw [ih]
      simp [pushLoc, renderFrag, List.append_assoc]

/-- A list of calls runs left to right: its fragment trace is the
concatenation, in call order, of the per-call traces. -/
theorem cmdTrace_seqList (template : String) (cmds : List Cmd) :
    cmdTrace template (seqList cmds) = (cmds.map (cmdTrace template)).flatten := by
  induction cmds with
  | nil => rfl
  | cons c cs ih => simp only [seqList, cmdTrace, List.map_cons, List.flatten_cons, ih]

/-- Balanced fragment sequences are closed under concatenation. -/
theorem balanced_append {l1 l2 : List Frag} (h1 : Balanced l1) (h2 : Balanced l2) :
    Balanced (l1 ++ l2) := by
  induction h1 with
  | nil => simpa using h2
  | flat s _ ih => exact Balanced.flat s ih
  | node tag attributes hInner _ _ ihRest =>
      rw [List.cons_append, List.append_assoc, List.cons_append]
      exact Balanced.node tag attributes hInner ihRest

/-- The body fragments of any command sequence are well-formed. -/
theorem balanced_cmdTrace (template : String) (c : Cmd) : Balanced (cmdTrace template c) := by
  induction c with
  | skip => exact Balanced.nil
  | seq c1 c2 ih1 ih2 => exact balanced_append ih1 ih2
  | headA s => exact Balanced.nil
  | bodyA s => exact Balanced.flat _ Balanced.nil
  | circle x y r a => exact Balanced.flat _ Balanced.nil
  | ellipse x y w h a => exact Balanced.flat _ Balanced.nil
  | rect x y w h a => exact Balanced.flat _ Balanced.nil
  | square x y s a => exact Balanced.flat _ Balanced.nil
  | line x1 y1 x2 y2 a => exact Balanced.flat _ Balanced.nil
  | path d a => exact Balanced.flat _ Balanced.nil
  | polyline pts a => exact Balanced.flat _ Balanced.nil
  | polygon pts a => exact Balanced.flat _ Balanced.nil
  | groupNone a => exact Balanced.flat _ Balanced.nil
  | groupText s a =>
      simp only [cmdTrace]
      split <;> exact Balanced.flat _ Balanced.nil
  | groupObj o a => exact Balanced.flat _ Balanced.nil
  | groupCB c a ih => exact Balanced.node (groupTag template) a ih Balanced.nil

/-- C1: for every sequence of primitive calls issued synchronously inside a
`group` callback, the fragments those calls append to the body sequence
appear, in call order, strictly between the group's opening fragment and
its closing fragment, and the resulting body delta is a well-formed
(balanced) fragment sequence. -/
theorem group_nesting_invariant (cmds : List Cmd) (a : AttrMap) (g : Graphic) :
    ((runCmd (.groupCB (seqList cmds) a) g).bodyC
        = g.bodyC ++ (openTag (groupTag g.template) a
            :: ((cmds.map (fun c => (cmdTrace g.template c).map renderFrag)).flatten
                ++ [closeTag (groupTag g.template)])))
  ∧ ∃ tr, Balanced tr ∧
      (runCmd (.groupCB (seqList cmds) a) g).bodyC = g.bodyC ++ tr.map renderFrag := by
  have hsplit := runCmd_split (.groupCB (seqList cmds) a) g
  constructor
  · rw [hsplit]
    simp [cmdTrace, renderFrag, cmdTrace_seqList, List.map_flatten, Function.comp_def]
  · refine ⟨.openF (groupTag g.template) a
        :: (cmdTrace g.template (seqList cmds) ++ [.closeF (groupTag g.template)]),
      Balanced.node (groupTag g.template) a (balanced_cmdTrace g.template (seqList cmds))
        Balanced.nil, ?_⟩
    rw [hsplit]
    simp [cmdTrace, renderFrag]

/-- C2 counterexample: for the coordinate-pair array `[[1,2],[3,4]]`, the
emitted `points` value is `"1,2,3,4"` (JavaScript array stringification
joins the pairs with commas), not the space-separated `"1,2 3,4"` stated by
the claim. -/
theorem polyline_points_comma_cex :
    ((polyline (JVal.vArr [("1", "2"), ("3", "4")]) [] newGraphic).1).bodyC
        = ["<polyline  points=\"1,2,3,4\" />"]
  ∧ ((polyline (JVal.vArr [("1", "2"), ("3", "4")]) [] newGraphic).1).bodyC
        ≠ ["<polyline  points=\"1,2 3,4\" />"] :=
  ⟨by decide, by decide⟩

/-- C2 (amended): `polyline`/`polygon` append one self-closing fragment
whose `points` attribute holds the argument serialized by `jvalToString`:
a coordinate-pair array renders with the coordinates of a pair joined by a
comma and the pairs themselves also joined by commas
(`"x1,y1,x2,y2,…"`, JavaScript `Array.prototype.toString`), while a string
argument passes through unchanged. -/
theorem polyline_points_serialization :
    (∀ (ps : List (String × String)) (a : AttrMap) (g : Graphic),
        ((polyline (JVal.vArr ps) a g).1).bodyC
          = g.bodyC ++ [selfCloseTag "polyline" (jsSet a "points" (JVal.vArr ps))])
  ∧ (∀ (ps : List (String × String)) (a : AttrMap) (g : Graphic),
        ((polygon (JVal.vArr ps) a g).1).bodyC
          = g.bodyC ++ [selfCloseTag "polygon" (jsSet a "points" (JVal.vArr ps))])
  ∧ jvalToString (JVal.vArr []) = ""
  ∧ (∀ x y : String, jvalToString (JVal.vArr [(x, y)]) = x ++ "," ++ y)
  ∧ (∀ (x y : String) (q : String × String) (ps : List (String × String)),
        jvalToString (JVal.vArr ((x, y) :: q :: ps))
          = x ++ "," ++ y ++ "," ++ jvalToString (JVal.vArr (q :: ps)))
  ∧ (∀ s : String, jvalToString (JVal.vStr s) = s)
  ∧ (∀ (s : String) (a : AttrMap) (g : Graphic),
        ((polyline (JVal.vStr s) a g).1).bodyC
          = g.bodyC ++ [selfCloseTag "polyline" (jsSet a "points" (JVal.vStr s))]) := by
  refine ⟨fun ps a g => ?_, fun ps a g => ?_, rfl, fun x y => rfl, fun x y q ps => rfl,
    fun s => rfl, fun s a g => ?_⟩ <;>
    simp [polyline, polygon, constructTag, pushLoc]

/-- C6: `square(x, y, s, attrs)` delegates to `rect(x, y, s, s, attrs)`:
the mutated document, the returned value, and the resulting markup are
identical to those of the `rect` call on an identically configured
document. -/
theorem square_eq_rect (x y s : String) (a : AttrMap) (g : Graphic) :
    square x y s a g = rect x y s s a g
  ∧ (markup ((square x y s a g).1)).2 = (markup ((rect x y s s a g).1)).2 :=
  ⟨rfl, rfl⟩

/-- C9: when the nested-content callback faults after running some calls,
the fault propagates synchronously out of the tag builder (`Except.error`),
and the content store is left partially mutated: the opening fragment and
the callback's own fragments are present, and the matching closing
fragment is never appended. -/
theorem callback_fault_partial_state (c : Cmd) (a : AttrMap) (loc : Loc) (tag : String)
    (g : Graphic) :
    constructTagTry a (fun g' => Except.error (runCmd c g')) loc tag g
        = Except.error (runCmd c (pushLoc loc (openTag tag a) g))
  ∧ (runCmd c (pushLoc Loc.body (openTag tag a) g)).bodyC
        = g.bodyC ++ (openTag tag a :: (cmdTrace g.template c).map renderFrag) := by
  constructor
  · rfl
  · rw [runCmd_split]
    simp [pushLoc, List.append_assoc]

/-- A document in an unrecognized template mode with several fragments in
each sequence. -/
def cexDoc3 : Graphic :=
  { newGraphic with template := "xml", headC := ["h1", "h2"], bodyC := ["<a />", "<b />"] }

/-- C3 counterexample: in the fallback template mode the markup is the
JavaScript expression `head + body` on two arrays, which joins the entries
of each sequence with `","` — it is not the raw concatenation of the
fragments. -/
theorem fallback_concat_cex :
    (markup cexDoc3).2 = "h1,h2<a />,<b />" ∧ (markup cexDoc3).2 ≠ "h1h2<a /><b />" :=
  ⟨by decide, by decide⟩

/-- C3 (amended): for a document whose template mode is neither `svg` nor
`html`, `markup()` returns the string conversion of the head sequence
followed by the string conversion of the body sequence (entries of each
sequence joined by `","`, nothing wrapped), and the document itself is
untouched. -/
theorem fallback_markup_join (g : Graphic) (h1 : g.template ≠ "svg") (h2 : g.template ≠ "html") :
    (markup g).1 = g
  ∧ (markup g).2 = jsArrayToString g.headC ++ jsArrayToString g.bodyC := by
  unfold markup constructTemplate
  simp [h1, h2]

/-- C3 witness: the amended statement evaluated on `cexDoc3`. -/
theorem fallback_markup_join_witness :
    (markup cexDoc3).2 = jsArrayToString cexDoc3.headC ++ jsArrayToString cexDoc3.bodyC :=
  (fallback_markup_join cexDoc3 (by decide) (by decide)).2

/-- C4: the serializer returns the concatenation, in insertion order, of
` key="value"` for each entry of the (style-flattened) mapping — the empty
mapping yields the empty string — and a `style` entry holding a nested
mapping is first replaced by the concatenation, in insertion order, of
` key: value;` per style entry, so `{style: {a: "1", b: "2"}}` flattens to
the style value `" a: 1; b: 2;"` before quoting. -/
theorem convertAttributes_spec :
    (∀ m : AttrMap,
        (convertAttributes m).2
          = concatMapStr (fun p => " " ++ p.1 ++ "=\"" ++ jvalToString p.2 ++ "\"")
              (convertAttributes m).1)
  ∧ (convertAttributes []).2 = ""
  ∧ (∀ (m : AttrMap) (st : List (String × String)),
        jsGet m "style" = some (JVal.vObj st) →
          (convertAttributes m).1 = jsSet m "style" (JVal.vStr (flattenStyle st))
          ∧ flattenStyle st = concatMapStr (fun p => " " ++ p.1 ++ ": " ++ p.2 ++ ";") st)
  ∧ flattenStyle [("a", "1"), ("b", "2")] = " a: 1; b: 2;" := by
  refine ⟨fun m => ?_, rfl, fun m st hst => ⟨?_, ?_⟩, by decide⟩
  · have h : (convertAttributes m).2
        = (convertAttributes m).1.foldl
            (fun result p => result ++ " " ++ p.1 ++ "=\"" ++ jvalToString p.2 ++ "\"") "" := rfl
    rw [h, attrFold_eq, String.empty_append]
  · simp [convertAttributes, hst]
  · unfold flattenStyle
    rw [styleFold_eq, String.empty_append]

/-- C4 witness: the `style` replacement evaluated on the spec's example
mapping. -/
theorem convertAttributes_spec_witness :
    (convertAttributes [("style", JVal.vObj [("a", "1"), ("b", "2")])]).1
      = jsSet [("style", JVal.vObj [("a", "1"), ("b", "2")])] "style"
          (JVal.vStr (flattenStyle [("a", "1"), ("b", "2")])) :=
  (convertAttributes_spec.2.2.1 [("style", JVal.vObj [("a", "1"), ("b", "2")])]
    [("a", "1"), ("b", "2")] rfl).1

/-- A document that already has body content before the call sequence is
issued. -/
def cexDoc5 : Graphic := { newGraphic with template := "xml", bodyC := ["x"] }

/-- C5 counterexample: on a document whose content store is not empty
before the first run, clearing and re-issuing the same call sequence does
not reproduce the first run's markup (the pre-existing fragment is gone). -/
theorem reset_replay_cex :
    (markup (runCmd (.circle "1" "2" "3" [])
        ((empty (runCmd (.circle "1" "2" "3" []) cexDoc5)).1))).2
      ≠ (markup (runCmd (.circle "1" "2" "3" []) cexDoc5)).2 := by
  decide

/-- C5 (amended): for a document whose content store is empty when the
sequence is first issued, clearing the store (`empty`) and re-issuing the
same call sequence with the same arguments produces `markup()` output
identical to the first run's. -/
theorem reset_replay (c : Cmd) (g : Graphic) (hh : g.headC = []) (hb : g.bodyC = []) :
    (markup (runCmd c ((empty (runCmd c g)).1))).2 = (markup (runCmd c g)).2 := by
  have key : (empty (runCmd c g)).1 = g := by
    obtain ⟨ga, gc, gt, ghd, gbd, ghe, gw, gv⟩ := g
    simp only at hh hb
    subst hh; subst hb
    rw [runCmd_split]
    simp [empty]
  rw [key]

/-- C5 witness: the amended statement evaluated on a fresh document and a
single `circle` call. -/
theorem reset_replay_witness :
    (markup (runCmd (.circle "1" "2" "3" [])
        ((empty (runCmd (.circle "1" "2" "3" []) newGraphic)).1))).2
      = (markup (runCmd (.circle "1" "2" "3" []) newGraphic)).2 :=
  reset_replay (.circle "1" "2" "3" []) newGraphic rfl rfl

/-- C7: `triangle(x, y, size, attrs)` issues exactly one `polyline` call
appending one self-closing fragment; its point list has 4 points with the
first and last identical; the computed height is `size * sqrt(3)/2` (so
`sqrt(3)` for size 2, over the idealized real semantics of the numeric
computation); and the `transform` attribute is the caller-supplied
transform text followed by ` translate(x y)`. -/
theorem triangle_spec :
    (∀ (toStr : ℝ → String) (x y size : ℝ) (attrs : AttrMap) (g : Graphic),
        triangle (Real.sqrt 3) toStr x y size attrs g
          = polyline
              (JVal.vArr ((trianglePoints (Real.sqrt 3) size).map
                (fun p => (toStr p.1, toStr p.2))))
              (jsSet attrs "transform"
                (JVal.vStr (transformOr attrs
                  ++ " translate(" ++ toStr x ++ " " ++ toStr y ++ ")")))
              g)
  ∧ (∀ (toStr : ℝ → String) (x y size : ℝ) (attrs : AttrMap) (g : Graphic),
        ((triangle (Real.sqrt 3) toStr x y size attrs g).1).bodyC
          = g.bodyC ++ [selfCloseTag "polyline"
              (jsSet (jsSet attrs "transform"
                  (JVal.vStr (transformOr attrs
                    ++ " translate(" ++ toStr x ++ " " ++ toStr y ++ ")")))
                "points"
                (JVal.vArr ((trianglePoints (Real.sqrt 3) size).map
                  (fun p => (toStr p.1, toStr p.2)))))])
  ∧ (∀ size : ℝ, (trianglePoints (Real.sqrt 3) size).length = 4)
  ∧ (∀ size : ℝ,
        (trianglePoints (Real.sqrt 3) size).head? = (trianglePoints (Real.sqrt 3) size).getLast?)
  ∧ triangleHeight (Real.sqrt 3) 2 = Real.sqrt 3
  ∧ (∀ (attrs : AttrMap) (t : String),
        jsGet attrs "transform" = some (JVal.vStr t) → transformOr attrs = t) := by
  refine ⟨fun toStr x y size attrs g => rfl, fun toStr x y size attrs g => ?_,
    fun size => rfl, fun size => ?_, ?_, fun attrs t h => ?_⟩
  · simp [triangle, polyline, constructTag, pushLoc]
  · simp [trianglePoints, List.getLast?]
  · unfold triangleHeight
    ring
  · unfold transformOr
    rw [h]
    rfl

/-- C7 witness: the transform clause evaluated on a concrete mapping with
a caller-supplied transform. -/
theorem triangle_spec_witness :
    transformOr [("transform", JVal.vStr "rotate(45)")] = "rotate(45)" :=
  triangle_spec.2.2.2.2.2 [("transform", JVal.vStr "rotate(45)")] "rotate(45)" rfl

/-- C8: the first source variant's shape primitives all end in
`return this` (chaining works), but in the second variant `ellipse`,
`polygon` and `group` have no `return` statement and evaluate to
`undefined`, contradicting the documented "all shape methods support
method chaining". -/
theorem primitive_return_values :
    (∀ (x y r : String) (a : AttrMap) (g : Graphic), (circle x y r a g).2 = JSRet.thisRet)
  ∧ (∀ (x y w h : String) (a : AttrMap) (g : Graphic), (ellipse x y w h a g).2 = JSRet.thisRet)
  ∧ (∀ (x y w h : String) (a : AttrMap) (g : Graphic), (rect x y w h a g).2 = JSRet.thisRet)
  ∧ (∀ (x y s : String) (a : AttrMap) (g : Graphic), (square x y s a g).2 = JSRet.thisRet)
  ∧ (∀ (x1 y1 x2 y2 : String) (a : AttrMap) (g : Graphic),
      (line x1 y1 x2 y2 a g).2 = JSRet.thisRet)
  ∧ (∀ (d : String) (a : AttrMap) (g : Graphic), (path d a g).2 = JSRet.thisRet)
  ∧ (∀ (pts : JVal) (a : AttrMap) (g : Graphic), (polyline pts a g).2 = JSRet.thisRet)
  ∧ (∀ (pts : JVal) (a : AttrMap) (g : Graphic), (polygon pts a g).2 = JSRet.thisRet)
  ∧ (∀ (sqrt3 x y size : ℚ) (toStr : ℚ → String) (a : AttrMap) (g : Graphic),
      (triangle sqrt3 toStr x y size a g).2 = JSRet.thisRet)
  ∧ (∀ (c : ContentF) (a : AttrMap) (g : Graphic), (group c a g).2 = JSRet.thisRet)
  ∧ (∀ (x y w h : String) (a : AttrMap) (g : Graphic),
      (ellipseSecond x y w h a g).2 = JSRet.undefRet)
  ∧ (∀ (pts : JVal) (a : AttrMap) (g : Graphic), (polygonSecond pts a g).2 = JSRet.undefRet)
  ∧ (∀ (c : ContentF) (a : AttrMap) (g : Graphic), (groupSecond c a g).2 = JSRet.undefRet) :=
  ⟨fun _ _ _ _ _ => rfl, fun _ _ _ _ _ _ => rfl, fun _ _ _ _ _ _ => rfl,
   fun _ _ _ _ _ => rfl, fun _ _ _ _ _ _ => rfl, fun _ _ _ => rfl, fun _ _ _ => rfl,
   fun _ _ _ => rfl, fun _ _ _ _ _ _ _ => rfl, fun _ _ _ => rfl, fun _ _ _ _ _ _ => rfl,
   fun _ _ _ => rfl, fun _ _ _ => rfl⟩

/-- A document in an unrecognized template mode whose root attributes hold
a nested style mapping. -/
def cexDoc10 : Graphic :=
  { newGraphic with template := "xml", attributes := [("style", JVal.vObj [("a", "1")])] }

/-- C10 counterexample: in the fallback template mode `markup()` never
calls the serializer, so the nested style mapping in the root attributes
is not replaced by the flattened string. -/
theorem markup_style_fallback_cex :
    (markup cexDoc10).1.attributes = [("style", JVal.vObj [("a", "1")])]
  ∧ (markup cexDoc10).1.attributes ≠ [("style", JVal.vStr (flattenStyle [("a", "1")]))] :=
  ⟨by decide, by decide⟩

/-- C10 (amended): `markup()` never modifies the head or body sequences;
in the `svg` and `html` template modes (the modes that serialize root
attributes) the first call replaces a nested style mapping in the root
attributes, in place, by the flattened style string; and a second
`markup()` call on the resulting document returns the same string as the
first. -/
theorem markup_frame_effect (g : Graphic) :
    (markup g).1.headC = g.headC
  ∧ (markup g).1.bodyC = g.bodyC
  ∧ ((g.template = "svg" ∨ g.template = "html") →
      ∀ st : List (String × String),
        jsGet g.attributes "style" = some (JVal.vObj st) →
          (markup g).1.attributes = jsSet g.attributes "style" (JVal.vStr (flattenStyle st)))
  ∧ (markup ((markup g).1)).2 = (markup g).2 := by
  by_cases hh : g.template = "html"
  · refine ⟨?_, ?_, fun _ st hst => ?_, ?_⟩
    · simp [markup, constructTemplate, hh]
    · simp [markup, constructTemplate, hh]
    · simp [markup, constructTemplate, hh, convertAttributes, hst]
    · simp [markup, constructTemplate, hh, convertAttributes_idem]
  · by_cases hs : g.template = "svg"
    · refine ⟨?_, ?_, fun _ st hst => ?_, ?_⟩
      · simp [markup, constructTemplate, hh, hs]
      · simp [markup, constructTemplate, hh, hs]
      · simp [markup, constructTemplate, hh, hs, convertAttributes, hst]
      · simp [markup, constructTemplate, hh, hs, convertAttributes_idem]
    · refine ⟨?_, ?_, fun hcase => ?_, ?_⟩
      · simp [markup, constructTemplate, hh, hs]
      · simp [markup, constructTemplate, hh, hs]
      · rcases hcase with h | h
        · exact absurd h hs
        · exact absurd h hh
      · simp [markup, constructTemplate, hh, hs]

/-- A fresh svg-mode document whose root attributes hold a nested style
mapping. -/
def styleDoc : Graphic :=
  { newGraphic with attributes := [("style", JVal.vObj [("a", "1"), ("b", "2")])] }

/-- C10 witness: the in-place style replacement evaluated on a concrete
svg-mode document. -/
theorem markup_frame_effect_witness :
    (markup styleDoc).1.attributes
      = jsSet styleDoc.attributes "style"
          (JVal.vStr (flattenStyle [("a", "1"), ("b", "2")])) :=
  (markup_frame_effect styleDoc).2.2.1 (Or.inl rfl) [("a", "1"), ("b", "2")] rfl

end Goodvg
